import Mathlib

/-!
Verification of the construction-dashboard demo backend.

The definitions below are a shallow embedding of three parts of the code:

* the role-based dashboard configuration resolver
  (`flask_server/app.py`, route `/api/dashboard-config`): the two static
  tables `role_priorities` and `visualization_formats` (Python dicts,
  embedded as association lists preserving insertion order), the role
  normalization `role.lower().replace(" ", "_")`, and the final
  `sort(key=lambda x: x["priority"])`, a stable sort modelled by
  `List.insertionSort` with the `≤`-on-priority relation (a stable sort
  is unique, so any stable algorithm is extensionally the same);
* the table-filter builders `get_projects` / `get_tasks`
  (`flask_server/db_utils.py`): the pure query/parameter construction,
  with the database execution abstracted away;
* `CustomQueryTool.run` (`flask_server/db_tools.py`): the SELECT-only
  gate and the exception-to-error-dict conversion, with `execute_query`
  abstracted as an `Except`-valued oracle.
-/

/-- One entry of the `tile_configuration` list in the response:
`{"tile_id": ..., "priority": ..., "visualization_format": ...}`. -/
structure Tile where
  tile_id : String
  priority : Nat
  visualization_format : String
deriving DecidableEq, Repr

/-- The full response of the `/api/dashboard-config` endpoint. -/
structure DashboardResponse where
  role : String
  visualization_preference : String
  tile_configuration : List Tile
deriving DecidableEq, Repr

/-- `role_priorities["project_manager"]` (app.py lines 217-227), in dict
insertion order. -/
def project_manager_priorities : List (String × Nat) :=
  [("project_overview", 1), ("task_progress", 2), ("team_members", 3),
   ("project_timeline", 3), ("progress_tracking", 4), ("material_inventory", 5),
   ("safety_incidents", 4), ("equipment_status", 6), ("daily_tasks", 7)]

/-- `role_priorities["ceo"]` (app.py lines 228-238). -/
def ceo_priorities : List (String × Nat) :=
  [("project_overview", 1), ("project_timeline", 2), ("progress_tracking", 3),
   ("team_members", 4), ("safety_incidents", 5), ("material_inventory", 6),
   ("equipment_status", 7), ("task_progress", 3), ("daily_tasks", 8)]

/-- `role_priorities["site_supervisor"]` (app.py lines 239-249). -/
def site_supervisor_priorities : List (String × Nat) :=
  [("task_progress", 1), ("project_overview", 2), ("team_members", 3),
   ("daily_tasks", 3), ("progress_tracking", 4), ("material_inventory", 5),
   ("equipment_status", 6), ("project_timeline", 7), ("safety_incidents", 4)]

/-- `role_priorities["safety_officer"]` (app.py lines 250-260). -/
def safety_officer_priorities : List (String × Nat) :=
  [("safety_incidents", 1), ("progress_tracking", 2), ("daily_tasks", 3),
   ("project_timeline", 4), ("project_overview", 5), ("task_progress", 6),
   ("team_members", 7), ("equipment_status", 8), ("material_inventory", 9)]

/-- `role_priorities["construction_worker"]` (app.py lines 261-271). -/
def construction_worker_priorities : List (String × Nat) :=
  [("task_progress", 1), ("daily_tasks", 2), ("material_inventory", 2),
   ("safety_incidents", 3), ("team_members", 4), ("progress_tracking", 5),
   ("equipment_status", 5), ("project_overview", 6), ("project_timeline", 7)]

/-- `role_priorities["inventory_manager"]` (app.py lines 272-282). -/
def inventory_manager_priorities : List (String × Nat) :=
  [("material_inventory", 1), ("equipment_status", 2), ("progress_tracking", 4),
   ("daily_tasks", 5), ("project_timeline", 6), ("project_overview", 7),
   ("team_members", 9), ("task_progress", 8), ("safety_incidents", 10)]

/-- The `role_priorities` dict lookup (app.py line 323, `dict.get` without
its default): `some` on the six keys, `none` otherwise. -/
def role_priorities (role : String) : Option (List (String × Nat)) :=
  if role = "project_manager" then some project_manager_priorities
  else if role = "ceo" then some ceo_priorities
  else if role = "site_supervisor" then some site_supervisor_priorities
  else if role = "safety_officer" then some safety_officer_priorities
  else if role = "construction_worker" then some construction_worker_priorities
  else if role = "inventory_manager" then some inventory_manager_priorities
  else none

/-- `visualization_formats["technical"]` (app.py lines 287-297). -/
def technical_formats : List (String × String) :=
  [("project_overview", "detailed_table"), ("task_progress", "detailed_table"),
   ("team_members", "detailed_table"), ("material_inventory", "detailed_table"),
   ("safety_incidents", "detailed_table"), ("equipment_status", "detailed_table"),
   ("project_timeline", "timeline_with_details"), ("daily_tasks", "detailed_table"),
   ("progress_tracking", "detailed_table")]

/-- `visualization_formats["balanced"]` (app.py lines 298-308). -/
def balanced_formats : List (String × String) :=
  [("project_overview", "summary_table"), ("task_progress", "bar_chart"),
   ("team_members", "summary_table"), ("material_inventory", "summary_table"),
   ("safety_incidents", "summary_table"), ("equipment_status", "summary_table"),
   ("project_timeline", "timeline"), ("daily_tasks", "summary_table"),
   ("progress_tracking", "bar_chart")]

/-- `visualization_formats["non_technical"]` (app.py lines 309-319). -/
def non_technical_formats : List (String × String) :=
  [("project_overview", "simplified_bar_chart"), ("task_progress", "simplified_bar_chart"),
   ("team_members", "simplified_table"), ("material_inventory", "simplified_table"),
   ("safety_incidents", "simplified_table"), ("equipment_status", "simplified_table"),
   ("project_timeline", "simplified_timeline"), ("daily_tasks", "simplified_table"),
   ("progress_tracking", "simplified_bar_chart")]

/-- The `visualization_formats` dict lookup (app.py line 324, `dict.get`
without its default). -/
def visualization_formats (pref : String) : Option (List (String × String)) :=
  if pref = "technical" then some technical_formats
  else if pref = "balanced" then some balanced_formats
  else if pref = "non_technical" then some non_technical_formats
  else none

/-- `role.lower().replace(" ", "_")` (app.py line 212).  Both steps are
per-character (`replace` has a single-character pattern), so they are
embedded as character maps. -/
def normalizeRole (role : String) : String :=
  String.mk ((String.mk (role.data.map Char.toLower)).data.map
    (fun c => if c = ' ' then '_' else c))

/-- The role table actually used: `role_priorities.get(role,
role_priorities["project_manager"])` (app.py line 323). -/
def prioritiesFor (nrole : String) : List (String × Nat) :=
  (role_priorities nrole).getD project_manager_priorities

/-- The format table actually used: `visualization_formats.get(pref,
visualization_formats["balanced"])` (app.py lines 324-326). -/
def formatsFor (pref : String) : List (String × String) :=
  (visualization_formats pref).getD balanced_formats

/-- One entry appended to `tile_configuration` (app.py lines 336-342):
`formats.get(tile_id, "summary_table")` is the association-list lookup
with default. -/
def mkTile (formats : List (String × String)) (kv : String × Nat) : Tile :=
  { tile_id := kv.1, priority := kv.2,
    visualization_format := (formats.lookup kv.1).getD "summary_table" }

/-- The `tile_configuration` list as built by the loop at app.py lines
335-342, before sorting: one tile per entry of the resolved role table,
in that table's insertion order. -/
def tilesFor (role pref : String) : List Tile :=
  (prioritiesFor (normalizeRole role)).map (mkTile (formatsFor pref))

/-- The comparison underlying `sort(key=lambda x: x["priority"])`. -/
def tileLE (a b : Tile) : Prop := a.priority ≤ b.priority

instance : DecidableRel tileLE := fun a b => Nat.decLe a.priority b.priority

instance : IsTotal Tile tileLE := ⟨fun a b => Nat.le_total a.priority b.priority⟩

instance : IsTrans Tile tileLE := ⟨fun _ _ _ h h' => Nat.le_trans h h'⟩

/-- `response["tile_configuration"].sort(key=lambda x: x["priority"])`
(app.py line 345).  Python's sort is stable; `List.insertionSort tileLE`
is the stable sort for this key (an element is inserted before the first
element of `≥` priority, hence after all earlier elements of equal
priority). -/
def sortTiles (l : List Tile) : List Tile := List.insertionSort tileLE l

/-- The whole `/api/dashboard-config` handler body (app.py lines
206-347) as a pure function of the two request fields. -/
def dashboard_config (role pref : String) : DashboardResponse :=
  { role := normalizeRole role,
    visualization_preference := pref,
    tile_configuration := sortTiles (tilesFor role pref) }

/-- Stability of `orderedInsert` for the priority key, phrased through
`filter`: inserting `t` low-to-high leaves each priority class's
subsequence the same as prepending `t`. -/
theorem tileFilter_orderedInsert (k : Nat) (t : Tile) :
    ∀ l : List Tile,
      (List.orderedInsert tileLE t l).filter (fun x => x.priority == k) =
        ((t :: l).filter (fun x => x.priority == k))
  | [] => rfl
  | b :: l => by
    by_cases h : tileLE t b
    · rw [List.orderedInsert, if_pos h]
    · rw [List.orderedInsert, if_neg h]
      have hlt : b.priority < t.priority := Nat.lt_of_not_le h
      by_cases hb : b.priority = k
      · have ht : t.priority ≠ k := by omega
        simp [List.filter_cons, hb, ht, tileFilter_orderedInsert k t l]
      · simp [List.filter_cons, hb, tileFilter_orderedInsert k t l]

/-- Stability of the embedded sort: within each priority class the output
order is the input order. -/
theorem tileFilter_insertionSort (k : Nat) :
    ∀ l : List Tile,
      (List.insertionSort tileLE l).filter (fun x => x.priority == k) =
        l.filter (fun x => x.priority == k)
  | [] => rfl
  | b :: l => by
    rw [List.insertionSort, tileFilter_orderedInsert k b (List.insertionSort tileLE l)]
    simp [List.filter_cons, tileFilter_insertionSort k l]

example : (dashboard_config "CEO" "non_technical").role = "ceo" := by decide

example : (dashboard_config "site_supervisor" "technical").tile_configuration.map Tile.tile_id =
    ["task_progress", "project_overview", "team_members", "daily_tasks",
     "progress_tracking", "safety_incidents", "material_inventory",
     "equipment_status", "project_timeline"] := by decide

/-- C1: for every role string and visualization-preference string, the
`tile_configuration` list produced by the dashboard config resolver is
sorted ascending by priority, is a permutation of the tiles built from
the resolved role table, and is stable: within every priority class the
output order equals the insertion order of the resolved role's priority
mapping. -/
theorem dashboard_config_sorted_stable (role pref : String) :
    List.Sorted tileLE ((dashboard_config role pref).tile_configuration) ∧
    List.Perm ((dashboard_config role pref).tile_configuration) (tilesFor role pref) ∧
    ∀ k : Nat,
      ((dashboard_config role pref).tile_configuration.filter
          (fun x => x.priority == k)) =
        (tilesFor role pref).filter (fun x => x.priority == k) :=
  ⟨List.sorted_insertionSort tileLE (tilesFor role pref),
   List.perm_insertionSort tileLE (tilesFor role pref),
   fun k => tileFilter_insertionSort k (tilesFor role pref)⟩

/-- C2 counterexample: for an unknown role the FULL output does not equal
the full output for `"project_manager"`: the echoed `role` field differs. -/
theorem dashboard_config_unknown_role_full_output_ne :
    dashboard_config "unknown_role" "balanced" ≠
      dashboard_config "project_manager" "balanced" := by decide

/-- C2 amended: for every role string whose normalization is absent from
the role priority table and every preference, the output for the unknown
role agrees with the output for `"project_manager"` on everything except
the echoed `role` field: the `tile_configuration` and
`visualization_preference` fields coincide. -/
theorem dashboard_config_unknown_role_fallback (role pref : String)
    (h : role_priorities (normalizeRole role) = none) :
    (dashboard_config role pref).tile_configuration =
      (dashboard_config "project_manager" pref).tile_configuration ∧
    (dashboard_config role pref).visualization_preference =
      (dashboard_config "project_manager" pref).visualization_preference := by
  refine ⟨?_, rfl⟩
  show sortTiles (tilesFor role pref) = sortTiles (tilesFor "project_manager" pref)
  have ht : tilesFor role pref = tilesFor "project_manager" pref := by
    rw [tilesFor, tilesFor, prioritiesFor, prioritiesFor, h]
    rfl
  rw [ht]

/-- Witness for C2's amended theorem at the concrete unknown role
`"unknown role"` (normalizing to `"unknown_role"`). -/
theorem dashboard_config_unknown_role_fallback_witness :
    (dashboard_config "unknown role" "technical").tile_configuration =
      (dashboard_config "project_manager" "technical").tile_configuration ∧
    (dashboard_config "unknown role" "technical").visualization_preference =
      (dashboard_config "project_manager" "technical").visualization_preference :=
  dashboard_config_unknown_role_fallback "unknown role" "technical" (by decide)

/-- C3 counterexample: for an unknown preference the FULL output does not
equal the full output for `"balanced"`: the echoed
`visualization_preference` field differs. -/
theorem dashboard_config_unknown_pref_full_output_ne :
    dashboard_config "ceo" "weird" ≠ dashboard_config "ceo" "balanced" := by decide

/-- C3 amended: for every role and every preference string absent from
the visualization-format table, the output agrees with the output for
`"balanced"` on everything except the echoed `visualization_preference`
field: the `tile_configuration` and `role` fields coincide. -/
theorem dashboard_config_unknown_pref_fallback (role pref : String)
    (h : visualization_formats pref = none) :
    (dashboard_config role pref).tile_configuration =
      (dashboard_config role "balanced").tile_configuration ∧
    (dashboard_config role pref).role = (dashboard_config role "balanced").role := by
  refine ⟨?_, rfl⟩
  show sortTiles (tilesFor role pref) = sortTiles (tilesFor role "balanced")
  have ht : tilesFor role pref = tilesFor role "balanced" := by
    rw [tilesFor, tilesFor, formatsFor, formatsFor, h]
    rfl
  rw [ht]

/-- Witness for C3's amended theorem at the concrete unknown preference
`"weird"`. -/
theorem dashboard_config_unknown_pref_fallback_witness :
    (dashboard_config "ceo" "weird").tile_configuration =
      (dashboard_config "ceo" "balanced").tile_configuration ∧
    (dashboard_config "ceo" "weird").role = (dashboard_config "ceo" "balanced").role :=
  dashboard_config_unknown_pref_fallback "ceo" "weird" (by decide)

/-- C4 counterexample: `resolve("site_supervisor", "technical")` does NOT
give every tile `visualization_format = "detailed_table"`: the
`project_timeline` tile gets `"timeline_with_details"` from the technical
format table, so the claimed conjunction fails. -/
theorem site_supervisor_technical_counterexample :
    ¬ (((dashboard_config "site_supervisor" "technical").tile_configuration.findIdx
          (fun t => t.tile_id == "task_progress") <
        (dashboard_config "site_supervisor" "technical").tile_configuration.findIdx
          (fun t => t.tile_id == "project_overview")) ∧
       ∀ t ∈ (dashboard_config "site_supervisor" "technical").tile_configuration,
         t.visualization_format = "detailed_table") := by decide

/-- C4 amended: `resolve("site_supervisor", "technical")` places the
`task_progress` tile (priority 1) before the `project_overview` tile
(priority 2), and every tile's format is `"detailed_table"` except
`project_timeline`, whose format is `"timeline_with_details"` per the
technical format table. -/
theorem site_supervisor_technical_order_formats :
    (((dashboard_config "site_supervisor" "technical").tile_configuration.findIdx
          (fun t => t.tile_id == "task_progress") <
        (dashboard_config "site_supervisor" "technical").tile_configuration.findIdx
          (fun t => t.tile_id == "project_overview")) ∧
      ∀ t ∈ (dashboard_config "site_supervisor" "technical").tile_configuration,
        t.visualization_format =
          if t.tile_id = "project_timeline" then "timeline_with_details"
          else "detailed_table") := by decide

/-- C5: `resolve("CEO", "non_technical")` normalizes the role to
`"ceo"`, and the first tile of `tile_configuration` is `project_overview`
with priority 1 and format `"simplified_bar_chart"`. -/
theorem ceo_non_technical_first_tile :
    (dashboard_config "CEO" "non_technical").role = "ceo" ∧
    (dashboard_config "CEO" "non_technical").tile_configuration.head? =
      some ⟨"project_overview", 1, "simplified_bar_chart"⟩ := by decide

/-- C7: the `role` field of the output is exactly the input role
lower-cased with spaces replaced by underscores, and the
`visualization_preference` field is exactly the raw input preference,
whatever tables the tile configuration was computed from. -/
theorem dashboard_config_echoes_inputs (role pref : String) :
    (dashboard_config role pref).role = normalizeRole role ∧
    (dashboard_config role pref).visualization_preference = pref :=
  ⟨rfl, rfl⟩

/-- C8: for every role present in the role priority table, resolving with
the `"balanced"` preference yields a non-empty `tile_configuration`
sorted by ascending priority. -/
theorem known_role_balanced_nonempty_sorted (role : String)
    (prios : List (String × Nat)) (h : role_priorities role = some prios) :
    (dashboard_config role "balanced").tile_configuration ≠ [] ∧
    List.Sorted tileLE ((dashboard_config role "balanced").tile_configuration) := by
  rw [role_priorities] at h
  split_ifs at h with h1 h2 h3 h4 h5 h6
  · subst h1; decide
  · subst h2; decide
  · subst h3; decide
  · subst h4; decide
  · subst h5; decide
  · subst h6; decide

/-- Witness for C8 at the concrete known role `"ceo"`. -/
theorem known_role_balanced_nonempty_sorted_witness :
    (dashboard_config "ceo" "balanced").tile_configuration ≠ [] ∧
    List.Sorted tileLE ((dashboard_config "ceo" "balanced").tile_configuration) :=
  known_role_balanced_nonempty_sorted "ceo" ceo_priorities (by decide)

/-- C6: the resolver is total: an unknown (normalized) role silently
falls back to the `"project_manager"` priority table, an unknown
preference silently falls back to the `"balanced"` format table, and a
tile id absent from the resolved format table gets the default format
`"summary_table"`; no input is an error. -/
theorem dashboard_config_total_fallbacks (role pref tid : String) (pri : Nat) :
    (role_priorities (normalizeRole role) = none →
      (dashboard_config role pref).tile_configuration =
        (dashboard_config "project_manager" pref).tile_configuration) ∧
    (visualization_formats pref = none →
      (dashboard_config role pref).tile_configuration =
        (dashboard_config role "balanced").tile_configuration) ∧
    ((formatsFor pref).lookup tid = none →
      mkTile (formatsFor pref) (tid, pri) = ⟨tid, pri, "summary_table"⟩) := by
  refine ⟨fun h => ?_, fun h => ?_, fun h => ?_⟩
  · show sortTiles (tilesFor role pref) = sortTiles (tilesFor "project_manager" pref)
    have ht : tilesFor role pref = tilesFor "project_manager" pref := by
      rw [tilesFor, tilesFor, prioritiesFor, prioritiesFor, h]
      rfl
    rw [ht]
  · show sortTiles (tilesFor role pref) = sortTiles (tilesFor role "balanced")
    have ht : tilesFor role pref = tilesFor role "balanced" := by
      rw [tilesFor, tilesFor, formatsFor, formatsFor, h]
      rfl
    rw [ht]
  · simp [mkTile, h]

/-- Witness for C6 at a concrete unknown role (`"mystery person"`,
normalizing to `"mystery_person"`), unknown preference (`"weird"`), and a
tile id absent from every format table (`"no_such_tile"`). -/
theorem dashboard_config_total_fallbacks_witness :
    ((dashboard_config "mystery person" "weird").tile_configuration =
      (dashboard_config "project_manager" "weird").tile_configuration) ∧
    ((dashboard_config "mystery person" "weird").tile_configuration =
      (dashboard_config "mystery person" "balanced").tile_configuration) ∧
    (mkTile (formatsFor "weird") ("no_such_tile", 0) =
      ⟨"no_such_tile", 0, "summary_table"⟩) :=
  ⟨(dashboard_config_total_fallbacks "mystery person" "weird" "no_such_tile" 0).1
      (by decide),
   (dashboard_config_total_fallbacks "mystery person" "weird" "no_such_tile" 0).2.1
      (by decide),
   (dashboard_config_total_fallbacks "mystery person" "weird" "no_such_tile" 0).2.2
      (by decide)⟩

/-- The recognized filter fields of `get_projects` (db_utils.py lines
278-288): `status`, `location`, `manager`.  A `some` field models the key
being present in the `filters` dict. -/
structure ProjectFilters where
  status : Option String
  location : Option String
  manager : Option String
deriving DecidableEq, Repr

/-- The recognized filter fields of `get_tasks` (db_utils.py lines
330-344): `project_id`, `status`, `assigned_to`, `priority`. -/
structure TaskFilters where
  project_id : Option String
  status : Option String
  assigned_to : Option String
  priority : Option String
deriving DecidableEq, Repr

/-- One `if "field" in filters:` block (db_utils.py lines 278-288 and
330-344): append the `"column = %s"` fragment to `where_clauses` and the
value to `params` when the field is present. -/
def appendFilter (acc : List String × List String) (col : String)
    (v : Option String) : List String × List String :=
  match v with
  | some x => (acc.1 ++ [col ++ " = %s"], acc.2 ++ [x])
  | none => acc

/-- The query/parameter assembly shared by the getters (db_utils.py lines
290-293): prepend `" WHERE "` and join the fragments with `" AND "` when
any were collected. -/
def assembleQuery (base : String) (acc : List String × List String) :
    String × List String :=
  (if acc.1.isEmpty then base
   else base ++ " WHERE " ++ String.intercalate " AND " acc.1,
   acc.2)

/-- The pure query construction of `get_projects` (db_utils.py lines
258-295): `none` models `filters=None` (and the falsy empty dict), where
the plain query runs with no parameters. -/
def get_projects_query (filters : Option ProjectFilters) : String × List String :=
  match filters with
  | none => ("SELECT * FROM projects", [])
  | some f =>
    assembleQuery "SELECT * FROM projects"
      (appendFilter (appendFilter (appendFilter ([], []) "status" f.status)
        "location" f.location) "manager" f.manager)

/-- The pure query construction of `get_tasks` (db_utils.py lines
310-351). -/
def get_tasks_query (filters : Option TaskFilters) : String × List String :=
  match filters with
  | none => ("SELECT * FROM tasks", [])
  | some f =>
    assembleQuery "SELECT * FROM tasks"
      (appendFilter (appendFilter (appendFilter (appendFilter ([], [])
        "project_id" f.project_id) "status" f.status)
        "assigned_to" f.assigned_to) "priority" f.priority)

/-- The provided (column, value) equalities of a `ProjectFilters`, in the
field order the getter checks them. -/
def providedProjectFilters (f : ProjectFilters) : List (String × String) :=
  ([("status", f.status), ("location", f.location),
    ("manager", f.manager)]).filterMap
    (fun cv => cv.2.map (fun v => (cv.1, v)))

/-- The provided (column, value) equalities of a `TaskFilters`, in the
field order the getter checks them. -/
def providedTaskFilters (f : TaskFilters) : List (String × String) :=
  ([("project_id", f.project_id), ("status", f.status),
    ("assigned_to", f.assigned_to), ("priority", f.priority)]).filterMap
    (fun cv => cv.2.map (fun v => (cv.1, v)))

/-- Modelled from the spec (amended to the `%s` placeholder the code
uses): the query is the base `SELECT` plus a `WHERE` clause made of one
`"column = %s"` fragment per provided field joined by `" AND "`, and the
parameter list is exactly the provided values in fragment order. -/
def spec_filter_query (base : String) (provided : List (String × String)) :
    String × List String :=
  (if provided.isEmpty then base
   else base ++ " WHERE " ++
     String.intercalate " AND " (provided.map (fun cv => cv.1 ++ " = %s")),
   provided.map (fun cv => cv.2))

/-- C9 counterexample: the builders use the `%s` placeholder style, not
`?`: with only `status = "Active"` provided, `get_projects` builds
`"... WHERE status = %s"`, which is not the `"... WHERE status = ?"`
the claim's `"column = ?"` fragments would give. -/
theorem get_projects_query_qmark_counterexample :
    (get_projects_query (some ⟨some "Active", none, none⟩)).1 =
      "SELECT * FROM projects WHERE status = %s" ∧
    (get_projects_query (some ⟨some "Active", none, none⟩)).1 ≠
      "SELECT * FROM projects WHERE status = ?" := by decide

/-- C9 amended: for every mapping of optional field equalities, each
getter builds the base query plus a `WHERE` clause that is one
`"column = %s"` fragment per provided field joined by `" AND "`, with
the parameter list exactly the provided values in fragment order. -/
theorem get_queries_where_params (pf : ProjectFilters) (tf : TaskFilters) :
    get_projects_query (some pf) =
      spec_filter_query "SELECT * FROM projects" (providedProjectFilters pf) ∧
    get_tasks_query (some tf) =
      spec_filter_query "SELECT * FROM tasks" (providedTaskFilters tf) := by
  obtain ⟨s, l, m⟩ := pf
  obtain ⟨p, st, a, pr⟩ := tf
  constructor
  · cases s <;> cases l <;> cases m <;> rfl
  · cases p <;> cases st <;> cases a <;> cases pr <;> rfl

/-- A value in a result row of `execute_query`; `date` models a Python
`datetime.date`, which `CustomQueryTool.run` converts to its ISO string. -/
inductive SqlValue where
  | str : String → SqlValue
  | int : Int → SqlValue
  | date : Nat → Nat → Nat → SqlValue
deriving DecidableEq, Repr

/-- A result row: one dict of column name to value. -/
abbrev SqlRow := List (String × SqlValue)

/-- `datetime.date.isoformat()`: `YYYY-MM-DD` with zero padding. -/
def isoformat (y m d : Nat) : String :=
  (if y < 10 then "000" else if y < 100 then "00"
   else if y < 1000 then "0" else "") ++ toString y ++ "-" ++
  (if m < 10 then "0" else "") ++ toString m ++ "-" ++
  (if d < 10 then "0" else "") ++ toString d

/-- The date-to-string conversion loop of `CustomQueryTool.run`
(db_tools.py lines 449-453): date values become their ISO strings,
everything else is unchanged. -/
def convertValue : SqlValue → SqlValue
  | .date y m d => .str (isoformat y m d)
  | v => v

/-- The conversion applied to a whole result set. -/
def convertRows (rows : List SqlRow) : List SqlRow :=
  rows.map (fun row => row.map (fun kv => (kv.1, convertValue kv.2)))

/-- `query.strip()` (db_tools.py line 441): drop leading and trailing
whitespace, character by character. -/
def stripString (s : String) : String :=
  String.mk (((s.data.dropWhile Char.isWhitespace).reverse.dropWhile
    Char.isWhitespace).reverse)

/-- `.upper()` (db_tools.py line 441), per character. -/
def upperString (s : String) : String :=
  String.mk (s.data.map Char.toUpper)

/-- The security gate `query.strip().upper().startswith("SELECT")`
(db_tools.py lines 441-442). -/
def isSelectQuery (q : String) : Bool :=
  "SELECT".data.isPrefixOf (upperString (stripString q)).data

/-- What `CustomQueryTool.run` can return: a converted result set or the
error dict `{"error": ...}`. -/
inductive QueryRunResult where
  | rows : List SqlRow → QueryRunResult
  | errorDict : String → QueryRunResult
deriving DecidableEq, Repr

/-- `CustomQueryTool.run` (db_tools.py lines 438-457).  The call to
`db_utils.execute_query` is abstracted as the oracle `db`; an exception
raised there is its `.error` case. -/
def customQueryToolRun (db : String → Except String (List SqlRow))
    (query : String) : QueryRunResult :=
  if isSelectQuery query = false then
    .errorDict "Only SELECT queries are allowed for security reasons"
  else
    match db query with
    | .ok result => .rows (convertRows result)
    | .error e => .errorDict ("Query execution failed: " ++ e)

/-- A database oracle with a fixed behavior, for concrete instantiation. -/
def dbConst (r : Except String (List SqlRow)) :
    String → Except String (List SqlRow) := fun _ => r

/-- C10: `CustomQueryTool.run` consults the database only when the query,
stripped and upper-cased, starts with `SELECT`: otherwise it returns the
security error dict and its output is independent of the database; when
it does run the query, a successful result is returned (dates converted)
and an exception is caught and returned as an error dict, never
propagated. -/
theorem customQueryToolRun_select_gate
    (db db' : String → Except String (List SqlRow)) (q : String)
    (rows : List SqlRow) (e : String) :
    (isSelectQuery q = false →
      customQueryToolRun db q =
        .errorDict "Only SELECT queries are allowed for security reasons" ∧
      customQueryToolRun db q = customQueryToolRun db' q) ∧
    (isSelectQuery q = true → db q = .ok rows →
      customQueryToolRun db q = .rows (convertRows rows)) ∧
    (isSelectQuery q = true → db q = .error e →
      customQueryToolRun db q = .errorDict ("Query execution failed: " ++ e)) := by
  refine ⟨fun h => ?_, fun h hdb => ?_, fun h hdb => ?_⟩
  · rw [customQueryToolRun, if_pos h, customQueryToolRun, if_pos h]
    exact ⟨rfl, rfl⟩
  · rw [customQueryToolRun, if_neg (by simp [h]), hdb]
  · rw [customQueryToolRun, if_neg (by simp [h]), hdb]

/-- Witness for C10: a `DROP` is rejected identically under two different
oracles; a lower-case, whitespace-padded `select` passes the gate and a
date in the result comes back as its ISO string; a raising oracle's
message comes back wrapped in the error dict. -/
theorem customQueryToolRun_select_gate_witness :
    (customQueryToolRun (dbConst (.ok [])) "DROP TABLE projects" =
        .errorDict "Only SELECT queries are allowed for security reasons" ∧
      customQueryToolRun (dbConst (.ok [])) "DROP TABLE projects" =
        customQueryToolRun (dbConst (.error "boom")) "DROP TABLE projects") ∧
    (customQueryToolRun (dbConst (.ok [[("start_date", .date 2024 5 7)]]))
        "  select * from projects  " =
      .rows [[("start_date", .str "2024-05-07")]]) ∧
    (customQueryToolRun (dbConst (.error "boom")) "SELECT nonsense" =
      .errorDict "Query execution failed: boom") :=
  ⟨(customQueryToolRun_select_gate (dbConst (.ok [])) (dbConst (.error "boom"))
      "DROP TABLE projects" [] "").1 (by decide),
   (customQueryToolRun_select_gate (dbConst (.ok [[("start_date", .date 2024 5 7)]]))
      (dbConst (.ok [])) "  select * from projects  "
      [[("start_date", .date 2024 5 7)]] "").2.1 (by decide) rfl,
   (customQueryToolRun_select_gate (dbConst (.error "boom")) (dbConst (.ok []))
      "SELECT nonsense" [] "boom").2.2 (by decide) rfl⟩
